import Mathlib

/-
Shallow embedding of the Plume-Farmer task-orchestration core:
proxy reserve management (utils/resource_manager.py, utils/db_api_async/db_activity.py),
the per-wallet workflow functions (functions/activity.py), the transaction
lifecycle helpers (libs/eth_async/transactions.py) and the retrying transaction
executor (tasks/base.py).  Python Decimal balances are embedded as rationals,
attempt-indexed environments stand for the network (a read either returns a
value or raises), and randomness is embedded as an explicit choice index.
-/

namespace PlumeFarmer

/-! ### Python string helpers

Embeds the `str.lower()` / `in` operations used by `Base.execute_transaction`
(`"insufficient funds" in str(e).lower()`). -/

/-- Lower-cases one character the way `str.lower` does on ASCII text. -/
def pyLowerChar (c : Char) : Char := if c.isUpper then Char.ofNat (c.toNat + 32) else c

/-- Embeds Python `s.lower()` (ASCII range, which covers the messages involved). -/
def pyLower (s : String) : String := ⟨s.data.map pyLowerChar⟩

/-- Boolean test that `t` is a leading block of `s`. -/
def startsWithL : List Char → List Char → Bool
  | _, [] => true
  | [], _ :: _ => false
  | c :: cs, d :: ds => (c == d) && startsWithL cs ds

/-- Boolean test that `t` occurs contiguously inside `s`. -/
def containsSubL : List Char → List Char → Bool
  | s, t =>
    startsWithL s t ||
      (match s with
       | [] => false
       | _ :: cs => containsSubL cs t)

/-- Embeds Python `sub in s` on strings. -/
def pyContains (s sub : String) : Bool := containsSubL s.data sub.data

/-! ### ProxyPool / ResourceManager
Embeds `ResourceManager._get_available_proxy`, `ResourceManager.replace_proxy`
(utils/resource_manager.py) and `DB.replace_bad_proxy`
(utils/db_api_async/db_activity.py). -/

/-- Authoritative wallet record fields touched by proxy replacement
(columns `proxy`, `proxy_status` of `User`). -/
structure WalletRec where
  proxy : Option String
  proxy_status : String
deriving DecidableEq

/-- Embeds `ResourceManager._get_available_proxy`.  `reserve` is the content of
the reserve-proxy file, `choice` embeds `random.choice` (index modulo length)
and `saveOk` tells whether `_save_to_file` succeeds.  Python `list.remove`
deletes the first occurrence of the chosen value, which is `List.erase`.
Returns the value returned to the caller together with the reserve-file content
persisted after the call (on a failed save the source keeps the old file and
still returns the proxy). -/
def get_available_proxy (reserve : List String) (choice : Nat) (saveOk : Bool) :
    Option String × List String :=
  match reserve with
  | [] => (none, [])
  | p :: rest =>
    let all := p :: rest
    let proxy := all.getD (choice % all.length) p
    let remaining := all.erase proxy
    let persisted := if saveOk then remaining else all
    (some proxy, persisted)

/-- Everything observable about one `ResourceManager.replace_proxy` call:
the returned pair, whether `DB.replace_bad_proxy` was invoked, the wallet
record afterwards and the persisted reserve file afterwards. -/
structure ReplaceResult where
  ok : Bool
  message : String
  db_called : Bool
  wallet : WalletRec
  reserve : List String
deriving DecidableEq

/-- Embeds `ResourceManager.replace_proxy` composed with `DB.replace_bad_proxy`.
`dbOk` tells whether the database update succeeds (user row found and commit
ok), `parse` embeds `parse_proxy`.  The source guard `if not new_proxy` is
true both for `None` and for an empty string. -/
def replace_proxy (reserve : List String) (choice : Nat) (saveOk dbOk : Bool)
    (parse : String → String) (w : WalletRec) : ReplaceResult :=
  let got := get_available_proxy reserve choice saveOk
  match got.1 with
  | none => ⟨false, "No available reserve proxies", false, w, got.2⟩
  | some p =>
    if p = "" then ⟨false, "No available reserve proxies", false, w, got.2⟩
    else if dbOk then
      ⟨true, "Proxy successfully replaced with " ++ p, true, ⟨some (parse p), "OK"⟩, got.2⟩
    else
      ⟨false, "Failed to replace the proxy", true, w, got.2⟩

/-- C2 counterexample: with a duplicated reserve entry the acquired proxy is
still a member of the persisted reserve after the call, so the claimed
no-double-issue invariant fails as stated. -/
theorem get_available_proxy_duplicate_counterexample :
    (get_available_proxy ["p", "p"] 0 true).1 = some "p" ∧
      "p" ∈ (get_available_proxy ["p", "p"] 0 true).2 := by decide

/-- C2 (amended): when the persisted save succeeds and the reserve file has no
duplicate entries, a proxy returned by `_get_available_proxy` is no longer a
member of the persisted reserve, so it cannot be handed out again. -/
theorem get_available_proxy_no_double_issue (reserve : List String) (choice : Nat)
    (r : String) (hnd : reserve.Nodup)
    (hr : (get_available_proxy reserve choice true).1 = some r) :
    r ∉ (get_available_proxy reserve choice true).2 := by
  match reserve with
  | [] => simp [get_available_proxy] at hr
  | p :: rest =>
    simp only [get_available_proxy] at hr ⊢
    have hp : (p :: rest).getD (choice % (p :: rest).length) p = r := by
      simpa using hr
    simp only [if_pos rfl, hp]
    intro hm
    exact ((List.Nodup.mem_erase_iff hnd).mp hm).1 rfl

/-- Witness for the amended C2 theorem on a concrete duplicate-free reserve. -/
theorem get_available_proxy_no_double_issue_witness :
    "p" ∉ (get_available_proxy ["p", "q"] 0 true).2 :=
  get_available_proxy_no_double_issue ["p", "q"] 0 "p" (by decide) (by decide)

/-- C3: with an empty reserve pool, `replace_proxy` returns exactly
`(False, "No available reserve proxies")`, never touches the database, leaves
the wallet record unchanged and leaves the (empty) reserve file unchanged. -/
theorem replace_proxy_empty_pool (choice : Nat) (saveOk dbOk : Bool)
    (parse : String → String) (w : WalletRec) :
    replace_proxy [] choice saveOk dbOk parse w =
      ⟨false, "No available reserve proxies", false, w, []⟩ := rfl

/-! ### check_plume_balance (functions/activity.py, lines 125-171)
The loop body reads the Plume balance through the wallet proxy; a raised read
increments `proxy_errors`, and once that counter reaches the hardcoded 3 the
proxy is marked BAD and (when auto-replace is on) a replacement is attempted.
Every failure path ends in `continue`; a successful read breaks out.
The environment `reads` maps the attempt index to `some balance` (the Decimal
`.Ether` value, embedded as a rational) or `none` when the read raises.  The
outcome of a replacement attempt only selects between two logging/sleep paths
that both continue the loop, so it does not appear in the state. -/

/-- Observable state of one `check_plume_balance` run: the consecutive failure
counter, how many times `mark_proxy_as_bad` was called, how many times
`replace_proxy` was attempted, and the balance variable (initially
`TokenAmount(0)`). -/
structure CBState where
  proxy_errors : Nat
  marks : Nat
  replace_calls : Nat
  balance : ℚ
deriving DecidableEq

/-- Embeds the `for _ in range(max_failures)` retry loop of
`check_plume_balance`; `fuel` is the number of remaining iterations and `i`
the attempt index fed to the environment. -/
def cb_loop (auto_replace : Bool) (reads : Nat → Option ℚ) :
    Nat → Nat → CBState → CBState
  | 0, _, s => s
  | fuel + 1, i, s =>
    match reads i with
    | some b => { s with balance := b }
    | none =>
      let pe := s.proxy_errors + 1
      if 3 ≤ pe then
        let s1 : CBState := { s with proxy_errors := pe, marks := s.marks + 1 }
        if auto_replace then
          cb_loop auto_replace reads fuel (i + 1)
            { s1 with replace_calls := s1.replace_calls + 1 }
        else
          cb_loop auto_replace reads fuel (i + 1) s1
      else
        cb_loop auto_replace reads fuel (i + 1) { s with proxy_errors := pe }

/-- Embeds `check_plume_balance`: run the retry loop from the zero state with
the configured `max_failures` budget, then return `balance_plume.Ether > 5`
together with the final loop state. -/
def check_plume_balance (max_failures : Nat) (auto_replace : Bool)
    (reads : Nat → Option ℚ) : Bool × CBState :=
  let s := cb_loop auto_replace reads max_failures 0 ⟨0, 0, 0, 0⟩
  (decide (5 < s.balance), s)

/-- C1 counterexample: with the configured threshold set to 4 and every read
failing, `mark_proxy_as_bad` is called twice (at the 3rd and 4th consecutive
failures), not exactly once at the threshold-th failure, and it already fires
before the threshold is reached. -/
theorem record_failure_threshold_counterexample :
    (check_plume_balance 4 false (fun _ => none)).2.marks = 2 ∧
      ¬ (check_plume_balance 4 false (fun _ => none)).2.marks = 1 := by decide

/-- Helper for the amended C1 theorem: over a run in which every read fails,
the marks counter grows by `fuel - (2 - proxy_errors)` (truncated
subtraction), i.e. a mark fires at every step whose new counter value is at
least 3. -/
theorem cb_loop_marks_all_fail (auto_replace : Bool) (reads : Nat → Option ℚ)
    (hr : ∀ j, reads j = none) :
    ∀ fuel i s, (cb_loop auto_replace reads fuel i s).marks
      = s.marks + (fuel - (2 - s.proxy_errors)) := by
  intro fuel
  induction fuel with
  | zero => intro i s; simp [cb_loop]
  | succ n ih =>
    intro i s
    rw [cb_loop, hr i]
    by_cases h3 : 3 ≤ s.proxy_errors + 1
    · rw [if_pos h3]
      by_cases ha : auto_replace
      · rw [if_pos ha, ih]; simp only; omega
      · rw [if_neg ha, ih]; simp only; omega
    · rw [if_neg h3, ih]; simp only; omega

/-- C1 (amended): the BAD transition is driven by the hardcoded constant 3,
not by the configured threshold: after `k` consecutive failed reads the wallet
has been marked BAD exactly `k - 2` times (so never during the first two
failures, exactly once at the third, and again on every later consecutive
failure).  The claim as stated holds only when the configured threshold is the
default 3. -/
theorem mark_proxy_threshold_hardcoded (max_failures : Nat) (auto_replace : Bool)
    (reads : Nat → Option ℚ) (hr : ∀ j, reads j = none) :
    (check_plume_balance max_failures auto_replace reads).2.marks
      = max_failures - 2 := by
  unfold check_plume_balance
  simp only
  rw [cb_loop_marks_all_fail auto_replace reads hr]
  simp

/-- Witness for the amended C1 theorem at the default threshold 3: exactly one
BAD transition. -/
theorem mark_proxy_threshold_hardcoded_witness :
    (check_plume_balance 3 true (fun _ => none)).2.marks = 3 - 2 :=
  mark_proxy_threshold_hardcoded 3 true (fun _ => none) (fun _ => rfl)

/-! ### process_bridge entry (functions/activity.py, lines 174-178)
`process_bridge` first calls `check_plume_balance`; when that returns `True`
it logs and returns `True` at once, entering neither network selection nor any
transaction submission.  `check_plume_balance` itself performs only balance
reads and proxy bookkeeping, so the number of transactions submitted on that
path is 0. -/

/-- Embeds the funded-early-return prefix of `process_bridge`: `some (r, t)`
means the function returned `r` after submitting `t` transactions; `none`
means execution continued into the network-selection/bridging section (not
entered when the balance check succeeds). -/
def process_bridge_entry (max_failures : Nat) (auto_replace : Bool)
    (reads : Nat → Option ℚ) : Option (Bool × Nat) :=
  if (check_plume_balance max_failures auto_replace reads).1 then some (true, 0)
  else none

/-- C9: when the first Plume balance read returns a value strictly above 5,
`process_bridge` returns `True` immediately with no transaction submitted, and
a second back-to-back call under the same balance does the same, for zero
transactions in total.  The model is stateless exactly because the early path
performs no mutation, so both calls are the same value. -/
theorem bridge_check_idempotent (max_failures : Nat) (auto_replace : Bool)
    (reads : Nat → Option ℚ) (b : ℚ) (hmf : 1 ≤ max_failures)
    (h0 : reads 0 = some b) (hb : 5 < b) :
    (process_bridge_entry max_failures auto_replace reads,
        process_bridge_entry max_failures auto_replace reads)
      = (some (true, 0), some (true, 0)) := by
  obtain ⟨k, rfl⟩ : ∃ k, max_failures = k + 1 :=
    ⟨max_failures - 1, by omega⟩
  have hcheck : (check_plume_balance (k + 1) auto_replace reads).1 = true := by
    unfold check_plume_balance
    rw [cb_loop, h0]
    simpa using hb
  simp [process_bridge_entry, hcheck]

/-- Witness for C9 at a concrete balance of 6 Plume. -/
theorem bridge_check_idempotent_witness :
    (process_bridge_entry 3 true (fun _ => some 6),
        process_bridge_entry 3 true (fun _ => some 6))
      = (some (true, 0), some (true, 0)) :=
  bridge_check_idempotent 3 true (fun _ => some 6) 6 (by decide) rfl (by decide)

/-! ### get_random_network_for_bridge (functions/activity.py, lines 89-122)
The candidate list is built in the fixed order Base, Arbitrum, Optimism: a
chain joins when its enable flag is set and the probed balance is at least
`MINIMAL_BALANCE_FOR_WORK`.  A non-empty list is shuffled and its head
returned; the shuffle is embedded as an arbitrary choice index.  An empty list
makes the function return the falsy `False`, embedded as `none`. -/

/-- Embeds the module constant `MINIMAL_BALANCE_FOR_WORK = 0.0008`. -/
def MINIMAL_BALANCE_FOR_WORK : ℚ := 8 / 10000

/-- Candidate networks cleared for the bridge, in source order. -/
def bridge_candidates (use_base use_arbitrum use_optimism : Bool)
    (bal_base bal_arbitrum bal_optimism : ℚ) : List String :=
  (if use_base ∧ MINIMAL_BALANCE_FOR_WORK ≤ bal_base then ["Base"] else []) ++
    (if use_arbitrum ∧ MINIMAL_BALANCE_FOR_WORK ≤ bal_arbitrum then ["Arbitrum"] else []) ++
      (if use_optimism ∧ MINIMAL_BALANCE_FOR_WORK ≤ bal_optimism then ["Optimism"] else [])

/-- Embeds `get_random_network_for_bridge`; `choice` stands for the random
shuffle (the element at index `choice mod length` becomes the head). -/
def get_random_network_for_bridge (use_base use_arbitrum use_optimism : Bool)
    (bal_base bal_arbitrum bal_optimism : ℚ) (choice : Nat) : Option String :=
  let l := bridge_candidates use_base use_arbitrum use_optimism
    bal_base bal_arbitrum bal_optimism
  if l.isEmpty then none
  else some (l.getD (choice % l.length) "Base")

/-- Embeds the network-selection step of `process_bridge` (lines 184-186): a
falsy network raises, a network is passed on. -/
def process_bridge_network : Option String → Except String String
  | none => Except.error "Wallet don\x27t have balance in any Network for bridge"
  | some n => Except.ok n

/-- C5: network selection for the bridge.  A chain is a candidate iff its
enable flag is set and its probed balance is at least the floor 0.0008 (the
three membership equivalences); every returned network is a candidate and
every candidate is returned for some shuffle outcome; a single qualifying
chain with all other balances 0 is returned deterministically; and with no
candidate the bridge step raises instead of returning a network. -/
theorem select_network_spec (ub ua uo : Bool) (bb ba bo : ℚ) :
    (∀ choice net,
        get_random_network_for_bridge ub ua uo bb ba bo choice = some net →
          net ∈ bridge_candidates ub ua uo bb ba bo) ∧
    (∀ net, net ∈ bridge_candidates ub ua uo bb ba bo →
        ∃ choice, get_random_network_for_bridge ub ua uo bb ba bo choice = some net) ∧
    ("Base" ∈ bridge_candidates ub ua uo bb ba bo ↔
        ub = true ∧ MINIMAL_BALANCE_FOR_WORK ≤ bb) ∧
    ("Arbitrum" ∈ bridge_candidates ub ua uo bb ba bo ↔
        ua = true ∧ MINIMAL_BALANCE_FOR_WORK ≤ ba) ∧
    ("Optimism" ∈ bridge_candidates ub ua uo bb ba bo ↔
        uo = true ∧ MINIMAL_BALANCE_FOR_WORK ≤ bo) ∧
    (ub = true → MINIMAL_BALANCE_FOR_WORK ≤ bb → ba = 0 → bo = 0 →
        ∀ choice,
          get_random_network_for_bridge ub ua uo bb ba bo choice = some "Base") ∧
    (bridge_candidates ub ua uo bb ba bo = [] → ∀ choice,
        process_bridge_network
            (get_random_network_for_bridge ub ua uo bb ba bo choice)
          = Except.error "Wallet don\x27t have balance in any Network for bridge") := by
  refine ⟨?_, ?_, ?_, ?_, ?_, ?_, ?_⟩
  · intro choice net h
    unfold get_random_network_for_bridge at h
    simp only at h
    by_cases he :
        (bridge_candidates ub ua uo bb ba bo).isEmpty
    · simp [he] at h
    · rw [if_neg he] at h
      have hlen : 0 < (bridge_candidates ub ua uo bb ba bo).length := by
        cases hc : bridge_candidates ub ua uo bb ba bo with
        | nil => rw [hc] at he; simp at he
        | cons p rest => simp
      have hlt : choice % (bridge_candidates ub ua uo bb ba bo).length
          < (bridge_candidates ub ua uo bb ba bo).length := Nat.mod_lt _ hlen
      rw [List.getD_eq_getElem _ _ hlt] at h
      have := List.getElem_mem hlt
      rw [Option.some_inj] at h
      rwa [h] at this
  · intro net hmem
    obtain ⟨i, hi, hget⟩ := List.mem_iff_getElem.mp hmem
    refine ⟨i, ?_⟩
    unfold get_random_network_for_bridge
    simp only
    have he : ¬ (bridge_candidates ub ua uo bb ba bo).isEmpty := by
      intro habs
      rw [List.isEmpty_iff] at habs
      rw [habs] at hi
      simp at hi
    rw [if_neg he, Nat.mod_eq_of_lt hi, List.getD_eq_getElem _ _ hi, hget]
  · unfold bridge_candidates
    split_ifs with h1 h2 h3 <;> simp_all
  · unfold bridge_candidates
    split_ifs with h1 h2 h3 <;> simp_all
  · unfold bridge_candidates
    split_ifs with h1 h2 h3 <;> simp_all
  · intro hub hbb hba hbo choice
    have hfloor : ¬ MINIMAL_BALANCE_FOR_WORK ≤ (0 : ℚ) := by
      unfold MINIMAL_BALANCE_FOR_WORK; norm_num
    have hc : bridge_candidates ub ua uo bb ba bo = ["Base"] := by
      unfold bridge_candidates
      rw [hba, hbo]
      rw [if_pos ⟨hub, hbb⟩, if_neg (fun h => hfloor h.2), if_neg (fun h => hfloor h.2)]
      rfl
    unfold get_random_network_for_bridge
    simp [hc]
  · intro hc choice
    unfold get_random_network_for_bridge
    simp [hc, process_bridge_network]

/-- Witness for C5 at the spec scenario: 0.002 native units on Base, 0
elsewhere, every chain enabled; the selection is Base for every shuffle. -/
theorem select_network_spec_witness :
    get_random_network_for_bridge true true true (2 / 1000) 0 0 7 = some "Base" :=
  (select_network_spec true true true (2 / 1000) 0 0).2.2.2.2.2.1
    rfl (by norm_num [MINIMAL_BALANCE_FOR_WORK]) rfl rfl 7

/-! ### process_swap loop body (functions/activity.py, lines 237-283)
Each `while True` iteration sets `nonce = 0`, tries to read the nonce, and on
an exception increments `proxy_errors`.  With fewer than 3 accumulated errors
the `else: continue` restarts the iteration; with 3 or more the proxy is
marked BAD and, when auto-replace is on, both replacement outcomes `continue`.
When auto-replace is off, however, there is no `continue` after
`mark_proxy_as_bad`: control falls through to `if int(nonce) >= 400` with the
nonce variable still 0 and then executes `swap.swap_plume()`. -/

/-- What one swap-loop iteration did after the nonce read: went back to the
read (`continue`), returned `True` because the target was met, or performed a
swap (recording the value of the nonce variable at that point). -/
inductive SwapIterStep
  | retried : SwapIterStep
  | done (nonce : Nat) : SwapIterStep
  | swapped (nonce : Nat) : SwapIterStep
deriving DecidableEq

/-- Observable outcome of one `process_swap` iteration. -/
structure SwapIterOut where
  step : SwapIterStep
  proxy_errors : Nat
  marked : Bool
  replaced : Bool
deriving DecidableEq

/-- Embeds one iteration of the `process_swap` loop.  `nonceRead` is
`some n` when `client.wallet.nonce()` returns `n` and `none` when it raises;
`proxy_errors` is the counter value entering the iteration.  The outcome of
the replacement attempt only selects between two paths that both `continue`,
so it does not change the observable outcome. -/
def process_swap_iteration (auto_replace : Bool) (proxy_errors : Nat)
    (nonceRead : Option Nat) : SwapIterOut :=
  match nonceRead with
  | some n =>
    if 400 ≤ n then ⟨.done n, proxy_errors, false, false⟩
    else ⟨.swapped n, proxy_errors, false, false⟩
  | none =>
    let pe := proxy_errors + 1
    if 3 ≤ pe then
      if auto_replace then ⟨.retried, pe, true, true⟩
      else ⟨.swapped 0, pe, true, false⟩
    else ⟨.retried, pe, false, false⟩

/-- C7 counterexample: on the third consecutive failed nonce read with
auto-replace disabled, the iteration does not retry the read — it marks the
proxy BAD, checks the target against the stale nonce value 0 and performs a
swap in the same iteration. -/
theorem swap_read_failure_counterexample :
    (process_swap_iteration false 2 none).step = SwapIterStep.swapped 0 ∧
      ¬ (process_swap_iteration false 2 none).step = SwapIterStep.retried := by
  decide

/-- C7 (amended): a failed nonce read makes the iteration retry the read
without swapping whenever auto-replace is enabled or fewer than 3 consecutive
failures have accumulated; in the remaining case — auto-replace disabled and
the counter reaching 3 — the iteration falls through and performs a swap with
the nonce variable still 0. -/
theorem swap_read_failure_behavior (auto_replace : Bool) (pe : Nat) :
    ((auto_replace = true ∨ pe + 1 < 3) →
      (process_swap_iteration auto_replace pe none).step = SwapIterStep.retried) ∧
    (auto_replace = false → 3 ≤ pe + 1 →
      (process_swap_iteration auto_replace pe none).step = SwapIterStep.swapped 0) := by
  constructor
  · rintro (rfl | hlt)
    · by_cases h3 : 3 ≤ pe + 1 <;> simp [process_swap_iteration, h3]
    · simp [process_swap_iteration, Nat.not_le.mpr hlt]
  · rintro rfl h3
    simp [process_swap_iteration, h3]

/-- Witness for the amended C7 theorem: first failed read with auto-replace on
retries the read. -/
theorem swap_read_failure_behavior_witness :
    (process_swap_iteration true 0 none).step = SwapIterStep.retried :=
  (swap_read_failure_behavior true 0).1 (Or.inl rfl)

/-! ### process_tasks aggregation (functions/activity.py, lines 286-341)
The whole body is wrapped in `try/except Exception`, so the orchestrator
returns normally in every case.  Worker results come back from
`asyncio.gather(..., return_exceptions=True)`: `main_process` yields `True`
(bridge and swaps both succeeded), `False` (bridge failed), a captured
exception — or the implicit `None` when the bridge phase succeeds but
`process_swap` returns `False`.  The tallies count `result is True` as
success and `isinstance(result, Exception) or result is False` as error. -/

/-- Outcome of one awaited Python coroutine: a returned boolean or a raised
exception captured by `gather`. -/
inductive PyOutcome
  | ok (b : Bool) : PyOutcome
  | exn : PyOutcome
deriving DecidableEq

/-- Value of one entry of the `results` list in `process_tasks`. -/
inductive WorkerResult
  | rTrue : WorkerResult
  | rFalse : WorkerResult
  | rNone : WorkerResult
  | rExn : WorkerResult
deriving DecidableEq

/-- Embeds `main_process` as a function of its two phase outcomes: a raised
bridge propagates; a falsy bridge returns `False`; with a truthy bridge a
raised swap propagates, a truthy swap returns `True`, and a falsy swap falls
off the end of the function, returning `None`. -/
def main_process_result : PyOutcome → PyOutcome → WorkerResult
  | .exn, _ => .rExn
  | .ok false, _ => .rFalse
  | .ok true, .exn => .rExn
  | .ok true, .ok true => .rTrue
  | .ok true, .ok false => .rNone

/-- Condition `result is True` of the success tally. -/
def is_success : WorkerResult → Bool
  | .rTrue => true
  | _ => false

/-- Condition `isinstance(result, Exception) or result is False` of the error
tally. -/
def is_error : WorkerResult → Bool
  | .rExn => true
  | .rFalse => true
  | _ => false

/-- Embeds `success_count = sum(1 for r in results if r is True)`. -/
def count_success (rs : List WorkerResult) : Nat := rs.countP is_success

/-- Embeds
`error_count = sum(1 for r in results if isinstance(r, Exception) or r is False)`. -/
def count_error (rs : List WorkerResult) : Nat := rs.countP is_error

/-- Embeds the observable behavior of `process_tasks`: a raised setup step
(database listing, slicing) is caught and the function returns with no tally
(`none`); otherwise the gathered worker results are tallied.  Either way the
function returns normally to its caller. -/
def process_tasks (outcome : Except String (List WorkerResult)) :
    Option (Nat × Nat) :=
  match outcome with
  | .error _ => none
  | .ok rs => some (count_success rs, count_error rs)

/-- C6 counterexample: a worker whose bridge phase succeeds but whose swap
phase returns `False` comes back as `None`, which is counted neither as a
success nor as an error, so the tallies do not add up to the number of
dispatched wallets. -/
theorem process_tasks_count_counterexample :
    main_process_result (.ok true) (.ok false) = WorkerResult.rNone ∧
      process_tasks (.ok [WorkerResult.rNone]) = some (0, 0) ∧
      ¬ (count_success [WorkerResult.rNone] + count_error [WorkerResult.rNone]
          = [WorkerResult.rNone].length) := by
  decide

/-- C6 (amended): `process_tasks` itself never raises (a setup failure is
caught and yields no tally; gathered results always yield one), every `True`,
`False` or captured-exception result is counted exactly once, so
`success_count + error_count` is at most the number of dispatched wallets,
with equality whenever no worker returned `None` — but a `main_process`
worker whose swap phase returns `False` yields `None` and is omitted from
both tallies. -/
theorem process_tasks_counts (rs : List WorkerResult) :
    process_tasks (.ok rs) = some (count_success rs, count_error rs) ∧
    (∀ e, process_tasks (.error e) = none) ∧
    count_success rs + count_error rs ≤ rs.length ∧
    (WorkerResult.rNone ∉ rs →
      count_success rs + count_error rs = rs.length) := by
  refine ⟨rfl, fun e => rfl, ?_, ?_⟩
  · induction rs with
    | nil => simp [count_success, count_error]
    | cons r rest ih =>
      simp only [count_success, count_error, List.countP_cons, List.length_cons] at ih ⊢
      cases r <;> simp [is_success, is_error] <;> omega
  · intro hn
    induction rs with
    | nil => simp [count_success, count_error]
    | cons r rest ih =>
      simp only [List.mem_cons, not_or] at hn
      have ih2 := ih hn.2
      simp only [count_success, count_error, List.countP_cons, List.length_cons] at ih2 ⊢
      cases r <;> simp [is_success, is_error] <;> simp_all <;> omega

/-- Witness for the amended C6 theorem on a concrete batch with one success,
one failure and one captured exception: the tallies cover all three. -/
theorem process_tasks_counts_witness :
    count_success [WorkerResult.rTrue, WorkerResult.rFalse, WorkerResult.rExn]
        + count_error [WorkerResult.rTrue, WorkerResult.rFalse, WorkerResult.rExn]
      = [WorkerResult.rTrue, WorkerResult.rFalse, WorkerResult.rExn].length :=
  (process_tasks_counts
      [WorkerResult.rTrue, WorkerResult.rFalse, WorkerResult.rExn]).2.2.2
    (by decide)

/-! ### Tx.wait_for_confirmations (libs/eth_async/transactions.py, lines 109-156)
The loop polls the receipt and the chain head inside a `try`; any exception
(the usual "transaction not yet mined" lookup failure) is logged and the loop
sleeps and polls again.  A receipt with a non-null block number returns as
soon as `head - blockNumber + 1` reaches the requested count.  When the
timeout elapses, `TransactionNotConfirmed` is raised when the attempt has a
hash; a hash-less attempt falls off the end and returns `None`.  The
post-loop write of `self.receipt` does not affect the returned or raised
outcome and is omitted.  `poll i = none` stands for an exception inside the
try block at iteration `i`; `poll i = some (bn?, head)` for a fetched receipt
(block number `bn?`, `none` embedding a null field) plus the current head;
`fuel` is the number of iterations the timeout admits. -/

/-- Outcome of a `wait_for_confirmations` call: a returned receipt (block
number and the confirmation count at return time), the raised
`TransactionNotConfirmed`, or the implicit `None` of a hash-less attempt. -/
inductive ConfResult
  | receipt (blockNumber conf : Int) : ConfResult
  | notConfirmed : ConfResult
  | noResult : ConfResult
deriving DecidableEq

/-- Embeds `Tx.wait_for_confirmations`. -/
def wait_for_confirmations (hashPresent : Bool) (confirmations : Int)
    (poll : Nat → Option (Option Int × Int)) : Nat → Nat → ConfResult
  | 0, _ => if hashPresent then .notConfirmed else .noResult
  | fuel + 1, i =>
    match poll i with
    | some (some bn, head) =>
      let conf := head - bn + 1
      if confirmations ≤ conf then .receipt bn conf
      else wait_for_confirmations hashPresent confirmations poll fuel (i + 1)
    | some (none, _) => wait_for_confirmations hashPresent confirmations poll fuel (i + 1)
    | none => wait_for_confirmations hashPresent confirmations poll fuel (i + 1)

/-- C4: `wait_for_confirmations` returns a receipt only with a confirmation
count at least the requested one; an exception while polling just moves the
loop to the next iteration; with a hash present the call never falls through
silently; and when no polled receipt ever clears the requested count the
timeout raises `TransactionNotConfirmed` instead of returning a receipt. -/
theorem wait_for_confirmations_spec (c : Int)
    (poll : Nat → Option (Option Int × Int)) (hp : Bool) (fuel i : Nat) :
    (∀ bn conf,
        wait_for_confirmations hp c poll fuel i = ConfResult.receipt bn conf →
          c ≤ conf) ∧
    (poll i = none →
        wait_for_confirmations hp c poll (fuel + 1) i
          = wait_for_confirmations hp c poll fuel (i + 1)) ∧
    (hp = true →
        wait_for_confirmations hp c poll fuel i ≠ ConfResult.noResult) ∧
    (hp = true →
        (∀ j bn head, poll j = some (some bn, head) → head - bn + 1 < c) →
        wait_for_confirmations hp c poll fuel i = ConfResult.notConfirmed) := by
  refine ⟨?_, ?_, ?_, ?_⟩
  · induction fuel generalizing i with
    | zero =>
      intro bn conf h
      unfold wait_for_confirmations at h
      split_ifs at h
    | succ n ih =>
      intro bn conf h
      unfold wait_for_confirmations at h
      cases hpoll : poll i with
      | none => rw [hpoll] at h; exact ih (i + 1) bn conf h
      | some v =>
        obtain ⟨bnf, head⟩ := v
        cases bnf with
        | none => rw [hpoll] at h; exact ih (i + 1) bn conf h
        | some bn0 =>
          rw [hpoll] at h
          simp only at h
          by_cases hc : c ≤ head - bn0 + 1
          · rw [if_pos hc] at h
            cases h
            exact hc
          · rw [if_neg hc] at h
            exact ih (i + 1) bn conf h
  · intro hpoll
    conv_lhs => unfold wait_for_confirmations
    rw [hpoll]
  · induction fuel generalizing i with
    | zero =>
      intro hhp
      unfold wait_for_confirmations
      rw [hhp]
      simp
    | succ n ih =>
      intro hhp
      unfold wait_for_confirmations
      cases hpoll : poll i with
      | none => exact ih (i + 1) hhp
      | some v =>
        obtain ⟨bnf, head⟩ := v
        cases bnf with
        | none => exact ih (i + 1) hhp
        | some bn0 =>
          simp only
          by_cases hc : c ≤ head - bn0 + 1
          · rw [if_pos hc]; simp
          · rw [if_neg hc]; exact ih (i + 1) hhp
  · induction fuel generalizing i with
    | zero =>
      intro hhp _
      unfold wait_for_confirmations
      rw [hhp]
      simp
    | succ n ih =>
      intro hhp hlow
      unfold wait_for_confirmations
      cases hpoll : poll i with
      | none => exact ih (i + 1) hhp hlow
      | some v =>
        obtain ⟨bnf, head⟩ := v
        cases bnf with
        | none => exact ih (i + 1) hhp hlow
        | some bn0 =>
          simp only
          rw [if_neg (Int.not_le.mpr (hlow i bn0 head hpoll))]
          exact ih (i + 1) hhp hlow

/-- Witness for C4 on concrete environments: a receipt found at block 10 with
head 12 clears 3 requested confirmations, and a chain whose head never grows
past 1 confirmation times out into the raised error. -/
theorem wait_for_confirmations_spec_witness :
    (3 : Int) ≤ 3 ∧
      wait_for_confirmations true 3 (fun _ => some (some 10, 10)) 4 0
        = ConfResult.notConfirmed :=
  ⟨(wait_for_confirmations_spec 3 (fun j => if j = 0 then some (some 10, 12) else none)
        true 5 0).1 10 3 (by decide),
    (wait_for_confirmations_spec 3 (fun _ => some (some 10, 10)) true 4 0).2.2.2
      rfl (fun j bn head h => by
        simp only [Option.some_inj, Prod.mk.injEq] at h
        obtain ⟨h1, h2⟩ := h
        omega)⟩

/-! ### Tx.cancel (libs/eth_async/transactions.py, lines 204-245)
`cancel` builds a fresh parameter dict — same chain id and nonce, `to` and
`from` set to the caller address, value 0, data `"0x"` — multiplies the fee
field that is present (`gasPrice`, or else both `maxFeePerGas` and
`maxPriorityFeePerGas`) by the multiplier through Python `int(x * m)`
(truncation toward zero), estimates gas, and submits through `sign_and_send`,
which returns a brand-new `Tx`; no field of the original `Tx` is assigned.
Signing is deterministic (RFC-6979), so the chain hash is a function `hashOf`
of the submitted parameters.  The embedding covers attempts that already carry
`params` (every `Tx` returned by `sign_and_send` does); a `params`-less
attempt would first fetch them from the chain through `parse_params`, which is
not modeled and is returned as `none` here.  A dict with `maxFeePerGas` but no
`maxPriorityFeePerGas` makes the source raise `TypeError` (`None * float`);
that case is also `none`.  The float multiplier is embedded as an exact
rational. -/

/-- Python `int()` applied to a rational: truncation toward zero. -/
def pyInt (q : ℚ) : Int := q.num.tdiv q.den

/-- Transaction parameter dict, with `Option` for the keys whose presence the
source tests. -/
structure SentTxParams where
  chainId : Int
  nonce : Int
  fromAddr : String
  toAddr : String
  value : Int
  data : String
  gasPrice : Option Int
  maxFeePerGas : Option Int
  maxPriorityFeePerGas : Option Int
  gas : Int
deriving DecidableEq

/-- A `Tx` value object: hash (set once sent), parameters, and receipt
(reduced to its status, set only by confirmation polling). -/
structure TxObj where
  hash : Option Int
  params : Option SentTxParams
  receipt : Option Int
deriving DecidableEq

/-- Embeds the construction of `cancel_params` from the original parameters
`p` (lines 221-239): `selfAddr` is `client.account.address`, `mult` the
`gas_price_multiplier`, `gasEstimate` the chain gas estimate for the new
dict. -/
def cancel_params (p : SentTxParams) (selfAddr : String) (mult : ℚ)
    (gasEstimate : Int) : Option SentTxParams :=
  let base : SentTxParams :=
    { chainId := p.chainId, nonce := p.nonce, fromAddr := selfAddr,
      toAddr := selfAddr, value := 0, data := "0x", gasPrice := none,
      maxFeePerGas := none, maxPriorityFeePerGas := none, gas := gasEstimate }
  match p.gasPrice, p.maxFeePerGas, p.maxPriorityFeePerGas with
  | some g, _, _ =>
    some { base with gasPrice := some (pyInt ((g : ℚ) * mult)) }
  | none, some mf, some mp =>
    some { base with
           maxFeePerGas := some (pyInt ((mf : ℚ) * mult))
           maxPriorityFeePerGas := some (pyInt ((mp : ℚ) * mult)) }
  | none, some _, none => none
  | none, none, _ => some base

/-- Embeds `Tx.cancel`: returns the original attempt (no field of it is ever
assigned) together with the new attempt produced by `sign_and_send`, whose
hash the chain derives deterministically from the submitted parameters via
`hashOf`. -/
def tx_cancel (hashOf : SentTxParams → Int) (selfAddr : String) (mult : ℚ)
    (gasEstimate : Int) (tx : TxObj) : TxObj × Option TxObj :=
  match tx.params with
  | none => (tx, none)
  | some p =>
    match cancel_params p selfAddr mult gasEstimate with
    | none => (tx, none)
    | some cp => (tx, some ⟨some (hashOf cp), some cp, none⟩)

/-- Original attempt of the C8 counterexample: itself a zero-value
self-transfer at gas price 5 — exactly what `cancel` rebuilds. -/
def degenerateParams : SentTxParams :=
  { chainId := 1, nonce := 7, fromAddr := "A", toAddr := "A", value := 0,
    data := "0x", gasPrice := some 5, maxFeePerGas := none,
    maxPriorityFeePerGas := none, gas := 21000 }

/-- Concrete deterministic chain hash used by the C8 counterexample. -/
def hashOfW (p : SentTxParams) : Int := p.nonce * 1000000 + p.gas + p.value

/-- The C8 counterexample attempt as sent: hash derived from its params. -/
def degenerateTx : TxObj :=
  ⟨some (hashOfW degenerateParams), some degenerateParams, none⟩

/-- C8 counterexample: cancelling an attempt that is already a zero-value
self-transfer with gas price 5 and multiplier 1.1 rebuilds byte-identical
parameters (`int(5 * 1.1) = 5`), so the resubmitted attempt equals the
original one — in particular its hash is not distinct from the original
hash. -/
theorem tx_cancel_hash_counterexample :
    (tx_cancel hashOfW "A" (11 / 10) 21000 degenerateTx).2 = some degenerateTx := by
  have hq : pyInt ((5 : ℚ) * (11 / 10)) = 5 := by
    norm_num [pyInt] <;> decide
  simp [tx_cancel, cancel_params, degenerateTx, degenerateParams, hq, hashOfW]

/-- Shape of the rebuilt cancel parameters, shared by the C8 theorem: same
nonce, zero value, self-addressed, empty data, fees multiplied through
`int(x * m)` for whichever fee fields were present. -/
theorem cancel_params_shape (p : SentTxParams) (selfAddr : String) (mult : ℚ)
    (gasEstimate : Int) (cp : SentTxParams)
    (hcp : cancel_params p selfAddr mult gasEstimate = some cp) :
    cp.nonce = p.nonce ∧ cp.value = 0 ∧ cp.toAddr = selfAddr ∧
    cp.fromAddr = selfAddr ∧ cp.data = "0x" ∧ cp.gas = gasEstimate ∧
    (∀ g, p.gasPrice = some g → cp.gasPrice = some (pyInt ((g : ℚ) * mult))) ∧
    (∀ mf mp, p.gasPrice = none → p.maxFeePerGas = some mf →
        p.maxPriorityFeePerGas = some mp →
          cp.maxFeePerGas = some (pyInt ((mf : ℚ) * mult)) ∧
          cp.maxPriorityFeePerGas = some (pyInt ((mp : ℚ) * mult))) := by
  unfold cancel_params at hcp
  split at hcp
  · rename_i g heq
    simp only [Option.some_inj] at hcp
    subst hcp
    refine ⟨rfl, rfl, rfl, rfl, rfl, rfl, ?_, ?_⟩
    · intro g2 hg2
      rw [heq] at hg2
      cases hg2
      rfl
    · intro mf mp hgn _ _
      rw [heq] at hgn
      cases hgn
  · rename_i mf mp heq1 heq2 heq3
    simp only [Option.some_inj] at hcp
    subst hcp
    refine ⟨rfl, rfl, rfl, rfl, rfl, rfl, ?_, ?_⟩
    · intro g2 hg2
      rw [heq1] at hg2
      cases hg2
    · intro mf2 mp2 _ hmf2 hmp2
      rw [heq2] at hmf2
      cases hmf2
      rw [heq3] at hmp2
      cases hmp2
      exact ⟨rfl, rfl⟩
  · cases hcp
  · rename_i heq1 heq2
    simp only [Option.some_inj] at hcp
    subst hcp
    refine ⟨rfl, rfl, rfl, rfl, rfl, rfl, ?_, ?_⟩
    · intro g2 hg2
      rw [heq1] at hg2
      cases hg2
    · intro mf2 mp2 _ hmf2 _
      rw [heq2] at hmf2
      cases hmf2

/-- C8 (amended): `cancel` submits a zero-value transfer to the sender own
address at the same nonce with each present fee field multiplied by the
multiplier (through `int(x * m)`), returning a new attempt; the original
attempt is returned unmodified in every field; and the new hash differs from
the original hash whenever the chain assigns the rebuilt parameters a
different hash — which can fail only in the degenerate case where the rebuilt
parameters coincide with the original ones (see the counterexample). -/
theorem tx_cancel_spec (hashOf : SentTxParams → Int) (selfAddr : String)
    (mult : ℚ) (gasEstimate : Int) (tx : TxObj) (p cp : SentTxParams)
    (hp : tx.params = some p)
    (hcp : cancel_params p selfAddr mult gasEstimate = some cp) :
    (tx_cancel hashOf selfAddr mult gasEstimate tx).1 = tx ∧
    (tx_cancel hashOf selfAddr mult gasEstimate tx).2
      = some ⟨some (hashOf cp), some cp, none⟩ ∧
    cp.nonce = p.nonce ∧ cp.value = 0 ∧ cp.toAddr = selfAddr ∧
    cp.fromAddr = selfAddr ∧ cp.data = "0x" ∧ cp.gas = gasEstimate ∧
    (∀ g, p.gasPrice = some g → cp.gasPrice = some (pyInt ((g : ℚ) * mult))) ∧
    (∀ mf mp, p.gasPrice = none → p.maxFeePerGas = some mf →
        p.maxPriorityFeePerGas = some mp →
          cp.maxFeePerGas = some (pyInt ((mf : ℚ) * mult)) ∧
          cp.maxPriorityFeePerGas = some (pyInt ((mp : ℚ) * mult))) ∧
    (hashOf cp ≠ hashOf p → tx.hash = some (hashOf p) →
        (tx_cancel hashOf selfAddr mult gasEstimate tx).2.map TxObj.hash
          ≠ some tx.hash) := by
  have hcancel : tx_cancel hashOf selfAddr mult gasEstimate tx
      = (tx, some ⟨some (hashOf cp), some cp, none⟩) := by
    unfold tx_cancel
    rw [hp]
    simp only [hcp]
  obtain ⟨h1, h2, h3, h4, h5, h6, h7, h8⟩ :=
    cancel_params_shape p selfAddr mult gasEstimate cp hcp
  refine ⟨by rw [hcancel], by rw [hcancel], h1, h2, h3, h4, h5, h6, h7, h8, ?_⟩
  intro hne hhash
  rw [hcancel, hhash]
  intro habs
  simp at habs
  exact hne habs

/-- Witness data for C8: a value-100 transfer to a distinct recipient. -/
def witOrigParams : SentTxParams :=
  { chainId := 1, nonce := 7, fromAddr := "A", toAddr := "B", value := 100,
    data := "0xdead", gasPrice := some 20, maxFeePerGas := none,
    maxPriorityFeePerGas := none, gas := 21000 }

/-- Witness data for C8: the parameters `cancel` rebuilds from
`witOrigParams` at multiplier 1.1 (`int(20 * 1.1) = 22`). -/
def witCancelParams : SentTxParams :=
  { chainId := 1, nonce := 7, fromAddr := "A", toAddr := "A", value := 0,
    data := "0x", gasPrice := some 22, maxFeePerGas := none,
    maxPriorityFeePerGas := none, gas := 21000 }

/-- Witness data for C8: the original attempt as sent. -/
def witOrigTx : TxObj := ⟨some 100, some witOrigParams, none⟩

/-- Witness for the amended C8 theorem: the cancel attempt for a value-100
transfer carries a hash distinct from the original attempt hash. -/
theorem tx_cancel_spec_witness :
    (tx_cancel (fun q => q.value) "A" (11 / 10) 21000 witOrigTx).2.map TxObj.hash
      ≠ some witOrigTx.hash :=
  (tx_cancel_spec (fun q => q.value) "A" (11 / 10) 21000 witOrigTx
      witOrigParams witCancelParams rfl
      (by
        have hq : pyInt ((20 : ℚ) * (11 / 10)) = 22 := by
          norm_num [pyInt] <;> decide
        simp [cancel_params, witOrigParams, witCancelParams, hq])).2.2.2.2.2.2.2.2.2.2
    (by decide) rfl

/-! ### Base.execute_transaction (tasks/base.py, lines 12-84)
Each attempt signs and submits the prepared parameters, waits for the receipt,
and checks `receipt.get("status", 1)`; status 0 raises "Transaction reverted",
a falsy receipt raises "Transaction receipt timeout", and any caught exception
whose lowered message contains "insufficient funds" stops retrying at once.
The whole body is a `try/except Exception` inside a bounded loop, after which
a failure result with `last_error or "Unknown error"` is returned. -/

/-- What one attempt of `Base.execute_transaction` observes from the chain:
an exception raised by `sign_and_send` or `wait_for_receipt` (with its
message), a falsy receipt or missing `tx.params` (turned into the
"Transaction receipt timeout" exception), or a receipt with its optional
`status` field and the transaction hash. -/
inductive AttemptOutcome
  | raised (msg : String) : AttemptOutcome
  | noReceipt : AttemptOutcome
  | receiptGot (status : Option Int) (hash : String) : AttemptOutcome

/-- Embeds the `TransactionResult` dataclass of tasks/base.py (the receipt is
reduced to its `status` field, the part the executor inspects). -/
structure TransactionResult where
  success : Bool
  tx_hash : Option String
  error_message : Option String
  receipt : Option (Option Int)
deriving DecidableEq

/-- Python `a or b` on an optional string: `None` and `""` are falsy. -/
def py_or_default (o : Option String) (d : String) : String :=
  match o with
  | none => d
  | some m => if m = "" then d else m

/-- The final `TransactionResult(success=False, error_message=last_error or
"Unknown error")` of `execute_transaction`. -/
def fail_result (last_error : Option String) : TransactionResult :=
  ⟨false, none, some (py_or_default last_error "Unknown error"), none⟩

/-- Embeds the retry-stopping test
`"insufficient funds" in str(e).lower()`. -/
def insufficient_funds (msg : String) : Bool :=
  pyContains (pyLower msg) "insufficient funds"

/-- Embeds the `while attempt <= retry_count` loop of
`Base.execute_transaction`: `fuel` is the number of attempts still allowed
(`retry_count + 1` at entry), `attempt` the index fed to the environment.  A
reverted receipt (`status == 0`) and a falsy receipt both raise and are
caught by the same handler; a message containing "insufficient funds" breaks
out of the loop at once; otherwise the loop sleeps and retries.  Every path
ends in a returned `TransactionResult`. -/
def execute_transaction_loop (env : Nat → AttemptOutcome) :
    Nat → Nat → Option String → TransactionResult
  | 0, _, last_error => fail_result last_error
  | fuel + 1, attempt, _ =>
    match env attempt with
    | .raised msg =>
      if insufficient_funds msg then fail_result (some msg)
      else execute_transaction_loop env fuel (attempt + 1) (some msg)
    | .noReceipt =>
      if insufficient_funds "Transaction receipt timeout" then
        fail_result (some "Transaction receipt timeout")
      else
        execute_transaction_loop env fuel (attempt + 1)
          (some "Transaction receipt timeout")
    | .receiptGot st h =>
      if st.getD 1 = 0 then
        if insufficient_funds "Transaction reverted" then
          fail_result (some "Transaction reverted")
        else
          execute_transaction_loop env fuel (attempt + 1)
            (some "Transaction reverted")
      else ⟨true, some h, none, some st⟩

/-- Embeds `Base.execute_transaction` (tasks/base.py, lines 27-84). -/
def execute_transaction (env : Nat → AttemptOutcome) (retry_count : Nat) :
    TransactionResult :=
  execute_transaction_loop env (retry_count + 1) 0 none

/-- Unfolding equation of the loop for an attempt whose submission or receipt
wait raises. -/
theorem execute_transaction_loop_step_raised (env : Nat → AttemptOutcome)
    (n attempt : Nat) (le : Option String) (msg : String)
    (henv : env attempt = .raised msg) :
    execute_transaction_loop env (n + 1) attempt le
      = if insufficient_funds msg then fail_result (some msg)
        else execute_transaction_loop env n (attempt + 1) (some msg) := by
  rw [execute_transaction_loop, henv]

/-- Unfolding equation of the loop for an attempt with a falsy receipt. -/
theorem execute_transaction_loop_step_noReceipt (env : Nat → AttemptOutcome)
    (n attempt : Nat) (le : Option String)
    (henv : env attempt = .noReceipt) :
    execute_transaction_loop env (n + 1) attempt le
      = if insufficient_funds "Transaction receipt timeout" then
          fail_result (some "Transaction receipt timeout")
        else execute_transaction_loop env n (attempt + 1)
          (some "Transaction receipt timeout") := by
  rw [execute_transaction_loop, henv]

/-- Unfolding equation of the loop for an attempt that obtained a receipt. -/
theorem execute_transaction_loop_step_receipt (env : Nat → AttemptOutcome)
    (n attempt : Nat) (le : Option String) (st : Option Int) (h : String)
    (henv : env attempt = .receiptGot st h) :
    execute_transaction_loop env (n + 1) attempt le
      = if st.getD 1 = 0 then
          (if insufficient_funds "Transaction reverted" then
            fail_result (some "Transaction reverted")
          else execute_transaction_loop env n (attempt + 1)
            (some "Transaction reverted"))
        else ⟨true, some h, none, some st⟩ := by
  rw [execute_transaction_loop, henv]

/-- A failure result always carries `success = False`. -/
theorem fail_result_not_success (le : Option String) :
    (fail_result le).success = false := rfl

/-- A failure result always carries a non-empty error message (Python
`last_error or "Unknown error"` replaces both `None` and `""`). -/
theorem fail_result_message (m : String) :
    ∃ m2, (fail_result (some m)).error_message = some m2 ∧ ¬ m2 = "" := by
  refine ⟨py_or_default (some m) "Unknown error", rfl, ?_⟩
  by_cases hm : m = "" <;> simp [py_or_default, hm]

/-- Soundness of a successful loop exit: success is returned only from an
attempt whose receipt has a non-zero (or absent, defaulted-to-1) status. -/
theorem execute_transaction_loop_success (env : Nat → AttemptOutcome) :
    ∀ fuel attempt le,
      (execute_transaction_loop env fuel attempt le).success = true →
        ∃ i st h, attempt ≤ i ∧ i < attempt + fuel ∧
          env i = .receiptGot st h ∧ ¬ st.getD 1 = 0 ∧
          execute_transaction_loop env fuel attempt le
            = ⟨true, some h, none, some st⟩ := by
  intro fuel
  induction fuel with
  | zero =>
    intro attempt le hs
    rw [execute_transaction_loop, fail_result_not_success] at hs
    cases hs
  | succ n ih =>
    intro attempt le hs
    cases henv : env attempt with
    | raised msg =>
      rw [execute_transaction_loop_step_raised env n attempt le msg henv] at hs ⊢
      by_cases hif : insufficient_funds msg
      · rw [if_pos hif, fail_result_not_success] at hs; cases hs
      · rw [if_neg hif] at hs ⊢
        obtain ⟨i, st, h, hle, hlt, he, hst, heqn⟩ := ih (attempt + 1) (some msg) hs
        exact ⟨i, st, h, by omega, by omega, he, hst, heqn⟩
    | noReceipt =>
      rw [execute_transaction_loop_step_noReceipt env n attempt le henv] at hs ⊢
      by_cases hif : insufficient_funds "Transaction receipt timeout"
      · rw [if_pos hif, fail_result_not_success] at hs; cases hs
      · rw [if_neg hif] at hs ⊢
        obtain ⟨i, st, h, hle, hlt, he, hst, heqn⟩ :=
          ih (attempt + 1) (some "Transaction receipt timeout") hs
        exact ⟨i, st, h, by omega, by omega, he, hst, heqn⟩
    | receiptGot st h =>
      rw [execute_transaction_loop_step_receipt env n attempt le st h henv] at hs ⊢
      by_cases hz : st.getD 1 = 0
      · rw [if_pos hz] at hs ⊢
        by_cases hif : insufficient_funds "Transaction reverted"
        · rw [if_pos hif, fail_result_not_success] at hs; cases hs
        · rw [if_neg hif] at hs ⊢
          obtain ⟨i, st2, h2, hle, hlt, he, hst, heqn⟩ :=
            ih (attempt + 1) (some "Transaction reverted") hs
          exact ⟨i, st2, h2, by omega, by omega, he, hst, heqn⟩
      · rw [if_neg hz] at hs ⊢
        exact ⟨attempt, st, h, le_refl _, by omega, henv, hz, rfl⟩

/-- Every unsuccessful loop exit carries a non-empty error message. -/
theorem execute_transaction_loop_failure (env : Nat → AttemptOutcome) :
    ∀ fuel attempt le,
      (execute_transaction_loop env fuel attempt le).success = false →
        ∃ m, (execute_transaction_loop env fuel attempt le).error_message = some m ∧
          ¬ m = "" := by
  intro fuel
  induction fuel with
  | zero =>
    intro attempt le _
    rw [execute_transaction_loop]
    refine ⟨py_or_default le "Unknown error", rfl, ?_⟩
    cases le with
    | none => simp [py_or_default]
    | some m =>
      by_cases hm : m = "" <;> simp [py_or_default, hm]
  | succ n ih =>
    intro attempt le hs
    cases henv : env attempt with
    | raised msg =>
      rw [execute_transaction_loop_step_raised env n attempt le msg henv] at hs ⊢
      by_cases hif : insufficient_funds msg
      · rw [if_pos hif] at hs ⊢; exact fail_result_message msg
      · rw [if_neg hif] at hs ⊢; exact ih (attempt + 1) (some msg) hs
    | noReceipt =>
      rw [execute_transaction_loop_step_noReceipt env n attempt le henv] at hs ⊢
      by_cases hif : insufficient_funds "Transaction receipt timeout"
      · rw [if_pos hif] at hs ⊢; exact fail_result_message _
      · rw [if_neg hif] at hs ⊢; exact ih (attempt + 1) _ hs
    | receiptGot st h =>
      rw [execute_transaction_loop_step_receipt env n attempt le st h henv] at hs ⊢
      by_cases hz : st.getD 1 = 0
      · rw [if_pos hz] at hs ⊢
        by_cases hif : insufficient_funds "Transaction reverted"
        · rw [if_pos hif] at hs ⊢; exact fail_result_message _
        · rw [if_neg hif] at hs ⊢; exact ih (attempt + 1) _ hs
      · rw [if_neg hz] at hs
        cases hs

/-- C10: `execute_transaction` is total (the model returns a
`TransactionResult` on every path); it returns `success=True` only when some
attempt within the retry budget obtained a receipt whose `status` is not 0
(reverted and timed-out attempts can only end in `success=False`), and every
failure carries a non-empty `error_message`; and when the first attempt
raises a message containing "insufficient funds", the result is that
immediate failure for every configured retry count — no further attempt is
made. -/
theorem execute_transaction_spec (env : Nat → AttemptOutcome) (retry_count : Nat) :
    ((execute_transaction env retry_count).success = true →
      ∃ i st h, i ≤ retry_count ∧ env i = .receiptGot st h ∧ ¬ st.getD 1 = 0 ∧
        execute_transaction env retry_count = ⟨true, some h, none, some st⟩) ∧
    ((execute_transaction env retry_count).success = false →
      ∃ m, (execute_transaction env retry_count).error_message = some m ∧
        ¬ m = "") ∧
    (∀ msg, env 0 = .raised msg → insufficient_funds msg = true →
      execute_transaction env retry_count = fail_result (some msg)) := by
  refine ⟨?_, ?_, ?_⟩
  · intro hs
    obtain ⟨i, st, h, _, hlt, he, hst, heqn⟩ :=
      execute_transaction_loop_success env (retry_count + 1) 0 none hs
    exact ⟨i, st, h, by omega, he, hst, heqn⟩
  · exact execute_transaction_loop_failure env (retry_count + 1) 0 none
  · intro msg henv hif
    unfold execute_transaction
    rw [execute_transaction_loop_step_raised env retry_count 0 none msg henv,
      if_pos hif]

/-- Witness for C10: an "insufficient funds" failure on the first attempt is
returned unchanged even with 5 retries configured. -/
theorem execute_transaction_spec_witness :
    execute_transaction (fun _ => .raised "insufficient funds for gas") 5
      = fail_result (some "insufficient funds for gas") :=
  (execute_transaction_spec (fun _ => .raised "insufficient funds for gas") 5).2.2
    "insufficient funds for gas" rfl (by decide)

end PlumeFarmer
